import Mathlib

namespace Respoke

/- ------------------------------------------------------------------ -/
/- CallState: the per-call finite-state machine.                       -/
/- ------------------------------------------------------------------ -/

/-- Modelled from the spec: the CallState implementation file
(respoke/callState.js) is not part of the provided sources; only its unit
test file (spec/unit/client/call-state.spec.js) is.  The states are the
nine states of the spec transition table, section 4.1. -/
inductive StateName
  | idle
  | preparing
  | approvingDeviceAccess
  | approvingContent
  | offering
  | connecting
  | connected
  | modifying
  | terminated
deriving DecidableEq

/-- Modelled from the spec: the eleven events of the CallState table. -/
inductive Event
  | initiate
  | answer
  | approve
  | receiveLocalMedia
  | sentOffer
  | receiveAnswer
  | receiveRemoteMedia
  | accept
  | modify
  | reject
  | hangup
deriving DecidableEq

/-- Modelled from the spec: the event payload.  The initiate event carries
whether the client has a listener for incoming calls (guard 1); the modify
event may carry receive = true, marking this side as the modify receiver
(guard 8). -/
structure Payload where
  hasListeners : Bool := true
  receive : Bool := false
deriving DecidableEq

/-- Modelled from the spec: machine state, section 3 data model, with the
modifyBit ghost flag tracking the isModifying window of section 8: set on
entry to modifying or to a modify-caused re-prepare, cleared on the next
entry to connected or terminated. -/
structure Machine where
  name : StateName
  isMediaFlowing : Bool
  hasLocalMedia : Bool
  hasLocalMediaApproval : Bool
  caller : Bool
  modifyBit : Bool
deriving DecidableEq

/-- Entry and exit notifications surfaced by the machine. -/
inductive Emitted
  | exited (s : StateName)
  | entered (s : StateName)
deriving DecidableEq

/-- Modelled from the spec: the transition table of section 4.1 with its
guards 1 to 11, refined by the unit tests in
spec/unit/client/call-state.spec.js (reject in preparing moves to connected
when media is flowing; the second approve and receiveLocalMedia in
approvingContent move the callee to connecting).  A result of none means
the event is not handled in the current state and is silently dropped. -/
def next (m : Machine) (e : Event) (p : Payload) : Option Machine :=
  match m.name, e with
  | .idle, .initiate =>
      some (if p.hasListeners then { m with name := .preparing }
            else { m with name := .terminated })
  | .idle, .hangup => some { m with name := .terminated }
  | .preparing, .answer =>
      if m.isMediaFlowing then none else some { m with name := .approvingDeviceAccess }
  | .preparing, .accept => some m
  | .preparing, .reject =>
      some (if m.isMediaFlowing then { m with name := .connected }
            else { m with name := .terminated })
  | .preparing, .hangup => some { m with name := .terminated }
  | .approvingDeviceAccess, .approve => some { m with name := .approvingContent }
  | .approvingDeviceAccess, .reject => some { m with name := .terminated }
  | .approvingDeviceAccess, .hangup => some { m with name := .terminated }
  | .approvingContent, .approve =>
      let m2 := { m with hasLocalMediaApproval := true }
      some (if m.hasLocalMedia then
              { m2 with name := if m.caller then .offering else .connecting }
            else m2)
  | .approvingContent, .receiveLocalMedia =>
      let m2 := { m with hasLocalMedia := true }
      some (if m.hasLocalMediaApproval then
              { m2 with name := if m.caller then .offering else .connecting }
            else m2)
  | .approvingContent, .reject => some { m with name := .terminated }
  | .approvingContent, .hangup => some { m with name := .terminated }
  | .offering, .receiveLocalMedia => some { m with hasLocalMedia := true }
  | .offering, .sentOffer => some m
  | .offering, .receiveAnswer => some { m with name := .connecting }
  | .offering, .reject => some { m with name := .terminated }
  | .offering, .hangup => some { m with name := .terminated }
  | .connecting, .receiveRemoteMedia => some { m with name := .connected }
  | .connecting, .reject => some { m with name := .terminated }
  | .connecting, .hangup => some { m with name := .terminated }
  | .connected, .modify =>
      some (if p.receive then
              { m with name := .preparing, caller := false, hasLocalMedia := false,
                       hasLocalMediaApproval := false, modifyBit := true }
            else { m with name := .modifying, modifyBit := true })
  | .connected, .reject => some m
  | .connected, .hangup => some { m with name := .terminated }
  | .modifying, .accept =>
      some { m with name := .preparing, caller := true, hasLocalMedia := false,
                    hasLocalMediaApproval := false }
  | .modifying, .reject => some { m with name := .connected }
  | .modifying, .hangup => some { m with name := .terminated }
  | _, _ => none

/-- Modelled from the spec: dispatch runs one event.  Unhandled events are
silently dropped (state unchanged, nothing emitted, no exception: the
function is total).  On a state change the machine emits the exit of the
previous state then the entry of the next; re-entry into the same state
emits neither.  The modifyBit is cleared on entry to connected or
terminated. -/
def dispatch (m : Machine) (e : Event) (p : Payload) : Machine × List Emitted :=
  match next m e p with
  | none => (m, [])
  | some m2 =>
    let m3 := if m2.name = .connected ∨ m2.name = .terminated then
                { m2 with modifyBit := false }
              else m2
    if m.name = m2.name then (m3, [])
    else (m3, [Emitted.exited m.name, Emitted.entered m2.name])

/-- Modelled from the spec: isModifying as specified in section 8. -/
def Machine.isModifying (m : Machine) : Bool := m.modifyBit

/-- The events listed in each row of the spec transition table of
section 4.1 (the cells that are not a dash). -/
def rowEvents : StateName → List Event
  | .idle => [.initiate, .hangup]
  | .preparing => [.answer, .accept, .reject, .hangup]
  | .approvingDeviceAccess => [.approve, .reject, .hangup]
  | .approvingContent => [.approve, .receiveLocalMedia, .reject, .hangup]
  | .offering => [.receiveLocalMedia, .sentOffer, .receiveAnswer, .reject, .hangup]
  | .connecting => [.receiveRemoteMedia, .reject, .hangup]
  | .connected => [.modify, .reject, .hangup]
  | .modifying => [.accept, .reject, .hangup]
  | .terminated => []

/-- Run a list of events through the machine, collecting everything
emitted. -/
def runEvents (m : Machine) : List (Event × Payload) → Machine × List Emitted
  | [] => (m, [])
  | (e, p) :: rest =>
    let r1 := dispatch m e p
    let r2 := runEvents r1.1 rest
    (r2.1, r1.2 ++ r2.2)

end Respoke

namespace Respoke

/- ------------------------------------------------------------------ -/
/- SignalingChannel: shared helpers for the javascript value model.    -/
/- ------------------------------------------------------------------ -/

/-- Truthiness of a javascript value that is either a string or
undefined: undefined and the empty string are falsy. -/
def jsTruthy : Option String → Bool
  | none => false
  | some s => !(s == "")

/-- The javascript expression a or-else b for a string-or-undefined a:
the value of a when truthy, otherwise b. -/
def jsOr (a : Option String) (b : String) : String :=
  match a with
  | some s => if s == "" then b else s
  | none => b

/-- The javascript expression s or-else d for a plain string s that may be
empty, as in the default of the http method in wsCall. -/
def jsOrS (s d : String) : String :=
  if s == "" then d else s

/-- Substring test, modelling the source pattern
hay.indexOf(needle) greater than minus one. -/
def strContains (hay needle : String) : Bool :=
  (hay.splitOn needle).length != 1

/-- A javascript array element as seen by the batching helpers: the source
keeps only elements for which typeof is string. -/
inductive JsVal
  | str (s : String)
  | other
deriving DecidableEq

/-- Insertion of a key into the ordered key set of a javascript object:
assigning obj[k] = true appends the key when absent and keeps the key
order otherwise. -/
def insertKey (ks : List String) (k : String) : List String :=
  if k ∈ ks then ks else ks ++ [k]

/-- The string elements of a javascript array, in order. -/
def jsStrings (l : List JsVal) : List String :=
  l.foldr (fun v acc => match v with | .str s => s :: acc | .other => acc) []

/- ------------------------------------------------------------------ -/
/- PendingRequests (signalingChannel.js lines 53 to 104).              -/
/- ------------------------------------------------------------------ -/

/-- The PendingRequests container of signalingChannel.js: a sparse array
in which add stores the object at the current counter index, increments
the counter and returns the incremented counter; remove deletes the slot
at the given key; reset invokes the callback on every stored object in
index order and then empties the container.  Entries are kept as pairs of
index and value in index order. -/
structure PendingRequests (α : Type) where
  contents : List (Nat × α)
  counter : Nat

/-- An empty PendingRequests container. -/
def PendingRequests.empty {α : Type} : PendingRequests α := ⟨[], 0⟩

/-- PendingRequests.add: contents[counter] = obj, counter++, return
counter.  The returned key is the value of the counter after the
increment, while the object was stored at the value before it. -/
def PendingRequests.add {α : Type} (pr : PendingRequests α) (obj : α) :
    Nat × PendingRequests α :=
  (pr.counter + 1, ⟨pr.contents ++ [(pr.counter, obj)], pr.counter + 1⟩)

/-- PendingRequests.remove: delete contents[key]. -/
def PendingRequests.remove {α : Type} (pr : PendingRequests α) (key : Nat) :
    PendingRequests α :=
  ⟨pr.contents.filter (fun kv => kv.1 != key), pr.counter⟩

/-- PendingRequests.reset: the list of stored objects the callback is
invoked on, in index order, together with the emptied container. -/
def PendingRequests.reset {α : Type} (pr : PendingRequests α) :
    List α × PendingRequests α :=
  (pr.contents.map Prod.snd, ⟨[], pr.counter⟩)

/- ------------------------------------------------------------------ -/
/- Signal routing: routingMethods.doBye (lines 1502 to 1525).          -/
/- ------------------------------------------------------------------ -/

/-- The fields of a Call that routingMethods.doBye consults.  The
connectionId is undefined until doAnswer records the winning callee
connection. -/
structure Call where
  caller : Bool
  connectionId : Option String
deriving DecidableEq

/-- An inbound bye signal as seen by doBye. -/
structure ByeSignal where
  fromConnection : Option String
deriving DecidableEq

/-- Events fired into a Call by the routing methods. -/
inductive CallFired
  | signalHangup
deriving DecidableEq

/-- routingMethods.doBye: when this side is the caller, a winning callee
connection has been picked (connectionId truthy) and the bye comes from a
different fromConnection, the signal is dropped; otherwise the
signal-hangup event fires.  The call record is returned unchanged in both
branches: doBye never mutates the call. -/
def doBye (call : Call) (signal : ByeSignal) : Call × List CallFired :=
  if call.caller && jsTruthy call.connectionId
      && !(call.connectionId == signal.fromConnection) then
    (call, [])
  else
    (call, [CallFired.signalHangup])

end Respoke

namespace Respoke

/- ------------------------------------------------------------------ -/
/- wsCall: websocket RPC (signalingChannel.js lines 2082 to 2227).     -/
/- ------------------------------------------------------------------ -/

/-- The client side body size limit, signalingChannel.js line 205. -/
def bodySizeLimit : Nat := 20000

/-- The status whitelist of handleResponse, line 2195. -/
def statusOkList : List Nat := [200, 204, 205, 302, 401, 403, 404, 418]

/-- The generic per-status-code messages, signalingChannel.js line 267. -/
def errorsMap : Nat → Option String
  | 400 => some ("Can\x27t perform this action: missing or invalid parameters.")
  | 401 => some ("Can\x27t perform this action: not authenticated.")
  | 403 => some ("Can\x27t perform this action: not authorized.")
  | 404 => some ("Item not found.")
  | 409 => some ("Can\x27t perform this action: item in the wrong state.")
  | 429 => some ("API rate limit was exceeded.")
  | 500 => some ("Can\x27t perform this action: server problem.")
  | _ => none

/-- The billing suspension message, signalingChannel.js line 19. -/
def billingSuspensionErrorMessage : String :=
  "Can\x27t perform this action: Not Authorized. Your account is suspended due to a " ++
  "billing issue. Please visit the Respoke Developer Portal (https://www.respoke.io) " ++
  "or contact customer support (support@respoke.io) to address this issue."

/-- The general suspension message, signalingChannel.js line 23. -/
def suspensionErrorMessage : String :=
  "Canot perform this action: Not Authorized. Your account is suspended. Please visit " ++
  "the Respoke Developer Portal (https://www.respoke.io) or contact customer support " ++
  "(support@respoke.io) to address this issue."

/-- A parsed response body: the error field and the two details fields the
suspension predicates look at.  A field of none models an absent
property. -/
structure RespBody where
  error : Option String := none
  detailsMessage : Option String := none
  detailsReason : Option String := none
deriving DecidableEq

/-- One response frame handed to the handleResponse callback.  statusCode
is response.statusCode; handlerStatus is the status property of the
callback context (this.status) consulted by the whitelist test at line
2195; both carry the http status of the response.  The body is the parsed
object, or the raw string when JSON.parse fails on a non-object body.
requestId models the Request-Id response header. -/
structure WsResponse where
  statusCode : Nat
  handlerStatus : Nat
  body : Except String RespBody
  requestId : Option String := none

/-- The request record built by wsCall: method, path, body (the JSON
serialization of params.parameters, none when absent) and the tries
counter. -/
structure Request where
  method : String
  path : String
  body : Option String
  tries : Nat
deriving DecidableEq

/-- A frame emitted on the socket by sendWebsocketRequest. -/
structure Frame where
  method : String
  path : String
  data : Option String
deriving DecidableEq

/-- The settled result of one RPC: the promise of wsCall is either
resolved with the parsed body or rejected with an error message. -/
inductive RpcOutcome
  | resolved (body : RespBody)
  | rejected (msg : String)
deriving DecidableEq

/-- What one invocation of handleResponse does: either schedule a resend
after a delay in milliseconds, or settle the promise. -/
inductive HandlerAction
  | retryAfterMs (delayMs : Nat)
  | settle (outcome : RpcOutcome)
deriving DecidableEq

/-- The parameters of wsCall.  The body field is the JSON serialization of
params.parameters; the source measures its UTF-8 byte length with
encodeURI and a percent-escape counting regular expression, which is the
UTF-8 byte count of the string. -/
structure WsParams where
  httpMethod : String := ""
  path : String := ""
  body : Option String := none

/-- Lower-casing of the http method string, as toLowerCase does on the
ascii method names used by the channel. -/
def strToLower (s : String) : String :=
  ⟨s.data.map Char.toLower⟩

/-- The UTF-8 byte length of the request body computed at the top of
wsCall (line 2092); zero when params.parameters is absent. -/
def wsBodyLength (p : WsParams) : Nat :=
  match p.body with
  | some s => s.utf8ByteSize
  | none => 0

/-- buildResponseError (line 2479): appends the Request-Id header to the
message when present. -/
def buildResponseError (requestId : Option String) (message : String) : String :=
  if jsTruthy requestId then
    message ++ " [Request-Id: " ++ (match requestId with | some s => s | none => "") ++ "]"
  else message

/-- isSuspensionUnauthorizedResponse (line 2362): status 401 and a details
message containing the word suspended. -/
def isSuspensionUnauthorizedResponse (r : WsResponse) (b : RespBody) : Bool :=
  r.statusCode == 401 &&
    (match b.detailsMessage with
     | some msg => strContains msg ("suspended")
     | none => false)

/-- isBillingSuspensionUnauthorizedResponse (line 2368): a suspension
response whose details reason contains the phrase billing suspension. -/
def isBillingSuspensionUnauthorizedResponse (r : WsResponse) (b : RespBody) : Bool :=
  isSuspensionUnauthorizedResponse r b &&
    (match b.detailsReason with
     | some rsn => strContains rsn ("billing suspension")
     | none => false)

/-- failWebsocketRequest (line 2210): the promise is rejected, with the
supplied message plus the method and path and buildResponseError, only
when the response body carries a truthy error field; otherwise the promise
is RESOLVED with the body and the supplied message is discarded. -/
def failWebsocketRequest (request : Request) (resp : WsResponse) (b : RespBody)
    (error : String) : RpcOutcome :=
  if jsTruthy b.error then
    RpcOutcome.rejected (buildResponseError resp.requestId
      (error ++ " (" ++ request.method ++ " " ++ request.path ++ ")"))
  else
    RpcOutcome.resolved b

/-- handleResponse (line 2139): parse the body; on status 429 retry after
1000 milliseconds while fewer than three attempts have been made,
otherwise fail with the rate limit message; then the suspension checks,
then the status whitelist check against the callback status, falling back
to the body error or the generic per-status message.  The isPending guard
of the retry branch always holds while the promise is unsettled and is
therefore not modelled. -/
def handleResponse (request : Request) (resp : WsResponse) : HandlerAction :=
  match resp.body with
  | .error raw =>
      HandlerAction.settle (RpcOutcome.rejected
        ("Server response could not be parsed!" ++ raw))
  | .ok b =>
    if resp.statusCode == 429 then
      if request.tries < 3 then HandlerAction.retryAfterMs 1000
      else HandlerAction.settle (failWebsocketRequest request resp b
        ("Too many retries after rate limit exceeded."))
    else if isBillingSuspensionUnauthorizedResponse resp b then
      HandlerAction.settle (failWebsocketRequest request resp b billingSuspensionErrorMessage)
    else if isSuspensionUnauthorizedResponse resp b then
      HandlerAction.settle (failWebsocketRequest request resp b suspensionErrorMessage)
    else if (statusOkList.contains resp.handlerStatus) = false then
      HandlerAction.settle (failWebsocketRequest request resp b
        (jsOr b.error (jsOr (errorsMap resp.handlerStatus) ("Unknown error"))))
    else
      HandlerAction.settle (RpcOutcome.resolved b)

/-- sendWebsocketRequest (line 2218): increments tries and emits one frame
on the socket. -/
def sendWebsocketRequest (req : Request) : Request × Frame :=
  ({ req with tries := req.tries + 1 },
   { method := req.method, path := req.path, data := req.body })

/-- The local validation phase of wsCall (lines 2090 to 2137) followed by
the first send: reject while not connected, reject a missing path, reject
an over-limit body; otherwise build the request record with the
lower-cased method defaulting to get, and emit the first frame.  An error
result means the promise was rejected locally and nothing was sent. -/
def wsCallStart (connected : Bool) (p : WsParams) : Except String (Request × Frame) :=
  if connected = false then
    Except.error ("Can\x27t complete request when not connected. Please reconnect!")
  else if p.path == "" then
    Except.error ("No request path.")
  else if bodySizeLimit < wsBodyLength p then
    Except.error ("Request body exceeds maximum size of " ++ toString bodySizeLimit ++ " bytes")
  else
    Except.ok (sendWebsocketRequest
      { method := strToLower (jsOrS p.httpMethod ("get")),
        path := p.path, body := p.body, tries := 0 })

/-- Drive one pending request through a list of response frames, one frame
per send attempt: a retry action increments tries (the resend goes through
sendWebsocketRequest) and records the delay; a settle action fixes the
outcome.  Returns the final request record, the list of retry delays and
the outcome (none when every supplied frame asked for another retry). -/
def runRequest (req : Request) : List WsResponse → Request × List Nat × Option RpcOutcome
  | [] => (req, [], none)
  | r :: rest =>
    match handleResponse req r with
    | .settle o => (req, [], some o)
    | .retryAfterMs d =>
      let nxt := runRequest { req with tries := req.tries + 1 } rest
      (nxt.1, d :: nxt.2.1, nxt.2.2)

/-- The complete result of one wsCall: a local rejection before anything
was sent, or a run with the final request record, the retry delays and the
settled outcome. -/
inductive WsCallResult
  | localReject (msg : String)
  | ran (finalReq : Request) (retryDelaysMs : List Nat) (outcome : Option RpcOutcome)
deriving DecidableEq

/-- wsCall end to end against a list of response frames. -/
def wsCall (connected : Bool) (p : WsParams) (responses : List WsResponse) : WsCallResult :=
  match wsCallStart connected p with
  | .error m => WsCallResult.localReject m
  | .ok rf =>
    let out := runRequest rf.1 responses
    WsCallResult.ran out.1 out.2.1 out.2.2

end Respoke

namespace Respoke

/- ------------------------------------------------------------------ -/
/- joinGroup batching (signalingChannel.js lines 749 to 806).          -/
/- ------------------------------------------------------------------ -/

/-- Add the string elements of a groupList to the ordered key set of the
groups accumulator object, as the forEach of joinGroup does. -/
def addKeys (ks : List String) (l : List JsVal) : List String :=
  l.foldl (fun a v => match v with | .str s => insertKey a s | .other => a) ks

/-- The closure state of joinGroup: the groups accumulator, the identity
of the shared deferred (a counter standing for promise identity: the
promise of deferred number n is returned to a caller as n), and how many
flush timeouts are queued. -/
structure JoinState where
  groups : List String := []
  deferredId : Nat := 0
  scheduled : Nat := 0
deriving DecidableEq

/-- One synchronous call to joinGroup while connected: record which string
group ids are new, schedule a flush timeout when the accumulator was empty
on entry, and hand the caller the promise of the current shared deferred.
The not-connected branch of the source rejects the shared deferred and
returns that same promise; only the connected path is modelled here. -/
def joinGroupCall (st : JoinState) (groupList : List JsVal) : Nat × JoinState :=
  let needsToRun := st.groups.isEmpty
  (st.deferredId,
   { groups := addKeys st.groups groupList,
     deferredId := st.deferredId,
     scheduled := if needsToRun then st.scheduled + 1 else st.scheduled })

/-- One wire RPC issued by a flush of the membership batchers. -/
structure GroupRpc where
  httpMethod : String
  path : String
  groups : List String
deriving DecidableEq

/-- One flush timeout of joinGroup: take the accumulated group list, reset
the accumulator, swap in a fresh deferred; when the list is empty resolve
the saved deferred at once with no RPC, otherwise issue one POST to
/v1/groups/ whose outcome settles the saved deferred.  The second
component pairs the RPC with the number of the deferred it settles. -/
def flushJoin (st : JoinState) : JoinState × Option (GroupRpc × Nat) :=
  let st2 : JoinState :=
    { groups := [], deferredId := st.deferredId + 1, scheduled := st.scheduled - 1 }
  if st.groups.isEmpty then (st2, none)
  else (st2, some ({ httpMethod := "POST", path := "/v1/groups/", groups := st.groups },
                   st.deferredId))

/-- Run the queued flush timeouts in order, collecting the RPCs issued. -/
def runJoinFlushes : Nat → JoinState → JoinState × List (GroupRpc × Nat)
  | 0, st => (st, [])
  | n + 1, st =>
    let s1 := flushJoin st
    let s2 := runJoinFlushes n s1.1
    (s2.1, s1.2.toList ++ s2.2)

/-- One synchronous caller in the fold of a batch window: append the
promise identity this caller receives and carry the closure state. -/
def joinStep (acc : List Nat × JoinState) (gl : List JsVal) : List Nat × JoinState :=
  (acc.1 ++ [(joinGroupCall acc.2 gl).1], (joinGroupCall acc.2 gl).2)

/-- A whole batch window of joinGroup while connected: the synchronous
calls run first, then every queued flush fires.  Returns the promise
identity each caller received and the RPCs issued. -/
def joinWindow (calls : List (List JsVal)) : List Nat × List (GroupRpc × Nat) :=
  let fin := calls.foldl joinStep ([], {})
  (fin.1, (runJoinFlushes fin.2.scheduled fin.2).2)

/-- The ordered union of the string elements of all groupList arguments of
a window. -/
def unionKeys (calls : List (List JsVal)) : List String :=
  calls.foldl addKeys []

/- ------------------------------------------------------------------ -/
/- registerPresence batching (signalingChannel.js lines 891 to 947).   -/
/- ------------------------------------------------------------------ -/

/-- Add to the endpoints accumulator the string elements of an
endpointList that are not yet marked in presenceRegistered, as the forEach
of registerPresence does. -/
def addNewEndpoints (reg : List String) (acc : List String) (l : List JsVal) : List String :=
  l.foldl (fun a v =>
    match v with
    | .str ep => if ep ∈ reg then a else insertKey a ep
    | .other => a) acc

/-- The closure state of registerPresence: the endpoints accumulator and,
for every queued flush timeout, the endpointList argument of the call that
scheduled it (the flush closure captures the params of that call). -/
structure PresenceState where
  endpoints : List String := []
  flushes : List (List JsVal) := []
deriving DecidableEq

/-- One synchronous call to registerPresence while connected, against the
registered set reg: ids already registered are filtered out, and a flush
timeout capturing this very endpointList is queued when the accumulator
was empty on entry. -/
def registerPresenceCall (reg : List String) (st : PresenceState)
    (endpointList : List JsVal) : PresenceState :=
  let toRun := st.endpoints.isEmpty
  { endpoints := addNewEndpoints reg st.endpoints endpointList,
    flushes := if toRun then st.flushes ++ [endpointList] else st.flushes }

/-- Run the queued flush timeouts of registerPresence in order.  Each
flush takes the whole accumulator; when non-empty it issues one POST to
/v1/presenceobservers and, on success, marks in presenceRegistered every
id of the endpointList CAPTURED by that flush - the list of the scheduling
call, not the flushed batch.  Returns the final registered set and the
RPCs issued. -/
def presenceFlushLoop (success : Bool) :
    List (List JsVal) → List String → List String → List String × List GroupRpc
  | [], reg, _endpoints => (reg, [])
  | c :: rest, reg, endpoints =>
    if endpoints.isEmpty then presenceFlushLoop success rest reg []
    else
      let reg2 := if success then (jsStrings c).foldl insertKey reg else reg
      let tailRun := presenceFlushLoop success rest reg2 []
      (tailRun.1,
       { httpMethod := "POST", path := "/v1/presenceobservers",
         groups := endpoints } :: tailRun.2)

/-- The accumulator state after the synchronous calls of one window. -/
def presenceAccum (reg : List String) (calls : List (List JsVal)) : PresenceState :=
  calls.foldl (registerPresenceCall reg) {}

/-- A whole batch window of registerPresence while connected: the
synchronous calls run against the registered set reg, then the queued
flushes fire; success tells whether the RPC of the window succeeds.
Returns the new registered set and the RPCs issued. -/
def presenceWindow (reg : List String) (calls : List (List JsVal))
    (success : Bool) : List String × List GroupRpc :=
  let st := presenceAccum reg calls
  presenceFlushLoop success st.flushes reg st.endpoints

end Respoke

namespace Respoke

/- ------------------------------------------------------------------ -/
/- Theorems.                                                           -/
/- ------------------------------------------------------------------ -/

/-- C1: for every CallState state and every event not listed in the row of
that state in the transition table, dispatching the event leaves the
machine unchanged (state and flags), raises no exception (dispatch is a
total function) and emits no entry or exit event. -/
theorem callState_invalid_event_ignored (m : Machine) (e : Event) (p : Payload)
    (h : e ∉ rowEvents m.name) : dispatch m e p = (m, []) := by
  rcases m with ⟨n, a, b, c, d, f⟩
  have h2 : e ∉ rowEvents n := h
  cases n <;> cases e <;>
    first
      | rfl
      | exact absurd (by decide) h2

/-- Witness for C1: the answer event is not in the idle row and is dropped
there. -/
theorem callState_invalid_event_ignored_witness :
    (Event.answer ∉ rowEvents StateName.idle) ∧
    dispatch ⟨.idle, false, false, false, true, false⟩ .answer {} =
      (⟨.idle, false, false, false, true, false⟩, []) :=
  ⟨by decide, callState_invalid_event_ignored _ _ _ (by decide)⟩

/-- C2: after a CallState machine has entered terminated, dispatching any
subsequent sequence of events causes no state change, no flag change and
emits no event. -/
theorem callState_terminated_absorbing (m : Machine) (l : List (Event × Payload))
    (h : m.name = .terminated) : runEvents m l = (m, []) := by
  induction l with
  | nil => rfl
  | cons ep rest ih =>
    obtain ⟨e, p⟩ := ep
    have hd : dispatch m e p = (m, []) := by
      rcases m with ⟨n, a, b, c, d, f⟩
      have hn : n = .terminated := h
      subst hn
      cases e <;> rfl
    simp [runEvents, hd, ih]

/-- Witness for C2: a terminated machine ignores hangup, initiate and
modify. -/
theorem callState_terminated_absorbing_witness :
    (Machine.name ⟨.terminated, false, false, false, true, false⟩ = .terminated) ∧
    runEvents ⟨.terminated, false, false, false, true, false⟩
        [(.hangup, {}), (.initiate, {}), (.modify, {})] =
      (⟨.terminated, false, false, false, true, false⟩, []) :=
  ⟨rfl, callState_terminated_absorbing _ _ rfl⟩

/-- C9: in connected, dispatching modify without receive moves to
modifying with isModifying true; dispatching accept there moves to
preparing with caller true, hasLocalMedia false, hasLocalMediaApproval
false, and isModifying still true. -/
theorem callState_modify_accept_reprepare (m : Machine) (p q : Payload)
    (hm : m.name = .connected) (hp : p.receive = false) :
    ((dispatch m .modify p).1.name = .modifying) ∧
    ((dispatch m .modify p).1.isModifying = true) ∧
    ((dispatch (dispatch m .modify p).1 .accept q).1.name = .preparing) ∧
    ((dispatch (dispatch m .modify p).1 .accept q).1.caller = true) ∧
    ((dispatch (dispatch m .modify p).1 .accept q).1.hasLocalMedia = false) ∧
    ((dispatch (dispatch m .modify p).1 .accept q).1.hasLocalMediaApproval = false) ∧
    ((dispatch (dispatch m .modify p).1 .accept q).1.isModifying = true) := by
  rcases m with ⟨n, a, b, c, d, f⟩
  rcases p with ⟨pl, pr⟩
  have hn : n = .connected := hm
  have hr : pr = false := hp
  subst hn
  subst hr
  exact ⟨rfl, rfl, rfl, rfl, rfl, rfl, rfl⟩

/-- Witness for C9: the modify round trip from a concrete connected
machine. -/
theorem callState_modify_accept_reprepare_witness :
    (Machine.name ⟨.connected, true, true, true, false, false⟩ = .connected) ∧
    (Payload.receive ⟨true, false⟩ = false) ∧
    ((dispatch ⟨.connected, true, true, true, false, false⟩ .modify ⟨true, false⟩).1.name
        = .modifying) ∧
    ((dispatch (dispatch ⟨.connected, true, true, true, false, false⟩ .modify
        ⟨true, false⟩).1 .accept {}).1 = ⟨.preparing, true, false, false, true, true⟩) :=
  ⟨rfl, rfl, (callState_modify_accept_reprepare _ ⟨true, false⟩ {} rfl rfl).1, by decide⟩

/-- C3: routingMethods.doBye drops an inbound bye when this side is the
caller, a winning callee connection has been selected (connectionId is a
non-empty string) and the bye comes from a different fromConnection: the
call record is unchanged and no signal-hangup event fires. -/
theorem doBye_losing_fork_dropped (call : Call) (signal : ByeSignal) (cid : String)
    (hcaller : call.caller = true) (hconn : call.connectionId = some cid)
    (hcid : ¬ cid = "") (hfrom : ¬ signal.fromConnection = some cid) :
    doBye call signal = (call, []) := by
  rcases call with ⟨cl, cn⟩
  have h1 : cl = true := hcaller
  have h2 : cn = some cid := hconn
  subst h1
  subst h2
  have hc1 : (cid == "") = false := beq_eq_false_iff_ne.mpr hcid
  have hc2 : (some cid == signal.fromConnection) = false := by
    apply beq_eq_false_iff_ne.mpr
    intro hEq
    exact hfrom hEq.symm
  simp [doBye, jsTruthy, hc1, hc2]

/-- Witness for C3: a bye from connection B while the caller has picked
connection A is dropped. -/
theorem doBye_losing_fork_dropped_witness :
    (Call.caller ⟨true, some "A"⟩ = true) ∧
    (Call.connectionId ⟨true, some "A"⟩ = some "A") ∧
    (¬ ("A" : String) = "") ∧
    (¬ ByeSignal.fromConnection ⟨some "B"⟩ = some "A") ∧
    doBye ⟨true, some "A"⟩ ⟨some "B"⟩ = (⟨true, some "A"⟩, []) :=
  ⟨rfl, rfl, by decide, by decide,
   doBye_losing_fork_dropped _ _ ("A") rfl rfl (by decide) (by decide)⟩

/-- C10: PendingRequests.add stores the object at the pre-increment
counter index but returns the post-increment counter as the key, so the
round trip of add followed by remove with the returned key does not remove
the object: a subsequent reset still invokes the callback on it. -/
theorem pendingRequests_add_remove_mismatch {α : Type} (pr : PendingRequests α) (x : α) :
    ((pr.add x).1 = pr.counter + 1) ∧
    ((pr.counter, x) ∈ (pr.add x).2.contents) ∧
    (x ∈ (((pr.add x).2.remove (pr.add x).1).reset).1) := by
  refine ⟨rfl, ?_, ?_⟩
  · simp [PendingRequests.add]
  · simp only [PendingRequests.add, PendingRequests.remove, PendingRequests.reset]
    refine List.mem_map.mpr ⟨(pr.counter, x), ?_, rfl⟩
    refine List.mem_filter.mpr ⟨?_, by simp⟩
    simp

end Respoke

namespace Respoke

/-- Helper: the UTF-8 length of a run of the ascii letter a. -/
theorem utf8len_replicate (n : Nat) :
    String.utf8Len (List.replicate n ('a' : Char)) = n := by
  induction n with
  | zero => rfl
  | succ k ih => simp [List.replicate, ih]; rfl

/-- C4 (amended): an RPC all of whose responses are parsed 429 responses
is sent three times in total, with a 1000 millisecond delay before each
resend, and the tries field of the request record counts every attempt;
when the third 429 response carries a truthy body error the exhaustion is
propagated as a rejection with the rate limit message.  (When the final
body has no error field the promise is instead resolved, see the
counterexample.) -/
theorem wsCall_rate_limit_retries (p : WsParams) (r1 r2 r3 : WsResponse)
    (b1 b2 b3 : RespBody)
    (hpath : ¬ p.path = "") (hsize : ¬ bodySizeLimit < wsBodyLength p)
    (hb1 : r1.body = .ok b1) (hs1 : r1.statusCode = 429)
    (hb2 : r2.body = .ok b2) (hs2 : r2.statusCode = 429)
    (hb3 : r3.body = .ok b3) (hs3 : r3.statusCode = 429)
    (herr : jsTruthy b3.error = true) :
    wsCall true p [r1, r2, r3] =
      .ran { method := strToLower (jsOrS p.httpMethod ("get")), path := p.path,
             body := p.body, tries := 3 } [1000, 1000]
        (some (.rejected (buildResponseError r3.requestId
          ("Too many retries after rate limit exceeded." ++ " (" ++
            strToLower (jsOrS p.httpMethod ("get")) ++ " " ++ p.path ++ ")")))) := by
  have hp : (p.path == "") = false := beq_eq_false_iff_ne.mpr hpath
  simp only [wsCall, wsCallStart, hp, hsize, if_false, if_neg, Bool.false_eq_true,
    sendWebsocketRequest]
  simp only [runRequest, handleResponse, hb1, hb2, hb3, hs1, hs2, hs3,
    failWebsocketRequest, herr]
  norm_num

/-- Witness for C4: three 429 responses whose bodies carry an error
string. -/
theorem wsCall_rate_limit_retries_witness :
    (¬ ("/v1/groups/" : String) = "") ∧
    (jsTruthy (RespBody.error { error := some "rate limited" }) = true) ∧
    wsCall true ⟨"post", "/v1/groups/", some "x"⟩
        [⟨429, 429, .ok { error := some "rate limited" }, none⟩,
         ⟨429, 429, .ok { error := some "rate limited" }, none⟩,
         ⟨429, 429, .ok { error := some "rate limited" }, none⟩] =
      .ran ⟨"post", "/v1/groups/", some "x", 3⟩ [1000, 1000]
        (some (.rejected
          ("Too many retries after rate limit exceeded. (post /v1/groups/)"))) :=
  ⟨by decide, by decide, by
    rw [wsCall_rate_limit_retries ⟨"post", "/v1/groups/", some "x"⟩
      ⟨429, 429, .ok { error := some "rate limited" }, none⟩
      ⟨429, 429, .ok { error := some "rate limited" }, none⟩
      ⟨429, 429, .ok { error := some "rate limited" }, none⟩
      { error := some "rate limited" } { error := some "rate limited" }
      { error := some "rate limited" }
      (by decide) (by decide) rfl rfl rfl rfl rfl rfl (by decide)]
    decide⟩

/-- Counterexample for C4 as frozen: when the 429 responses carry no body
error field, retry exhaustion does NOT propagate as a rate limit error:
failWebsocketRequest resolves the promise with the body instead.  The
attempt accounting (three sends, two 1000 millisecond delays, tries = 3)
is still visible in the result. -/
theorem wsCall_rate_limit_no_error_field :
    wsCall true ⟨"post", "/v1/groups/", some "x"⟩
        [⟨429, 429, .ok {}, none⟩, ⟨429, 429, .ok {}, none⟩, ⟨429, 429, .ok {}, none⟩] =
      .ran ⟨"post", "/v1/groups/", some "x", 3⟩ [1000, 1000]
        (some (.resolved {})) := by
  decide

/-- C5 (amended): for a parsed response whose status is not 429 and not in
the whitelist, the promise is rejected with the message found in the body
error field (with the method, path and Request-Id appended) when that
field holds a non-empty string; when the field is absent or empty the
promise is instead RESOLVED with the parsed body, and the generic
per-status-code message computed at the call site is discarded. -/
theorem handleResponse_other_status (req : Request) (resp : WsResponse) (b : RespBody)
    (hb : resp.body = .ok b) (hs : resp.handlerStatus = resp.statusCode)
    (h429 : ¬ resp.statusCode = 429)
    (hw : statusOkList.contains resp.statusCode = false) :
    handleResponse req resp =
      .settle (match b.error with
        | some e =>
          if e = "" then RpcOutcome.resolved b
          else RpcOutcome.rejected (buildResponseError resp.requestId
            (e ++ " (" ++ req.method ++ " " ++ req.path ++ ")"))
        | none => RpcOutcome.resolved b) := by
  have h401 : ¬ resp.statusCode = 401 := by
    intro hx
    rw [hx] at hw
    exact absurd hw (by decide)
  have hsusp : isSuspensionUnauthorizedResponse resp b = false := by
    simp [isSuspensionUnauthorizedResponse, beq_eq_false_iff_ne.mpr h401]
  have hbill : isBillingSuspensionUnauthorizedResponse resp b = false := by
    simp [isBillingSuspensionUnauthorizedResponse, hsusp]
  have h429b : (resp.statusCode == 429) = false := beq_eq_false_iff_ne.mpr h429
  simp only [handleResponse, hb, h429b, hsusp, hbill, hs, hw, Bool.false_eq_true,
    if_false]
  cases hbe : b.error with
  | none => simp [failWebsocketRequest, jsTruthy, hbe]
  | some e =>
    by_cases he : e = ""
    · subst he
      simp [failWebsocketRequest, jsTruthy, hbe]
    · simp [failWebsocketRequest, jsTruthy, hbe, beq_eq_false_iff_ne.mpr he, jsOr, he]

/-- Witness for C5: a 500 response whose body error is the string boom is
rejected with that message plus request context. -/
theorem handleResponse_other_status_witness :
    (¬ (500 : Nat) = 429) ∧ (statusOkList.contains 500 = false) ∧
    handleResponse ⟨"post", "/v1/groups/", none, 1⟩
        ⟨500, 500, .ok { error := some "boom" }, some "rid-1"⟩ =
      .settle (.rejected ("boom (post /v1/groups/) [Request-Id: rid-1]")) :=
  ⟨by decide, by decide, by
    rw [handleResponse_other_status ⟨"post", "/v1/groups/", none, 1⟩
      ⟨500, 500, .ok { error := some "boom" }, some "rid-1"⟩
      { error := some "boom" } rfl rfl (by decide) (by decide)]
    decide⟩

/-- Counterexample for C5 as frozen: a 500 response with no body error
field resolves the promise with the body; the generic per-status message
for 500 exists in the errors table but is never used as a rejection. -/
theorem handleResponse_status500_resolves :
    (statusOkList.contains 500 = false) ∧
    (errorsMap 500 = some ("Can\x27t perform this action: server problem.")) ∧
    handleResponse ⟨"post", "/v1/groups/", none, 1⟩ ⟨500, 500, .ok {}, none⟩ =
      .settle (.resolved {}) := by
  refine ⟨by decide, by decide, by decide⟩

/-- C8: with a connected channel and a non-empty path, a request whose
body exceeds 20000 UTF-8 bytes is rejected locally with the over-limit
message and nothing is sent (the localReject result carries no request and
no frame, since the frame is only built in the ok branch of wsCallStart);
a body at or under the limit never produces the over-limit rejection and
the request is sent. -/
theorem wsCall_body_size_limit (p : WsParams) (rs : List WsResponse)
    (hpath : ¬ p.path = "") :
    (bodySizeLimit < wsBodyLength p →
      wsCall true p rs = .localReject ("Request body exceeds maximum size of 20000 bytes")) ∧
    (wsBodyLength p ≤ bodySizeLimit → (wsCallStart true p).isOk = true) := by
  have hp : (p.path == "") = false := beq_eq_false_iff_ne.mpr hpath
  constructor
  · intro hgt
    simp only [wsCall, wsCallStart, hp, Bool.false_eq_true, if_false, if_pos hgt]
    have hmsg : ("Request body exceeds maximum size of " ++ toString bodySizeLimit ++ " bytes")
        = "Request body exceeds maximum size of 20000 bytes" := by decide
    rw [hmsg]
    simp
  · intro hle
    have hng : ¬ bodySizeLimit < wsBodyLength p := by omega
    simp [wsCallStart, hp, hng, Except.isOk, Except.toBool]

/-- Witness for C8: a three byte body is sent; a 20001 byte body is
rejected locally. -/
theorem wsCall_body_size_limit_witness :
    (¬ ("/v1/x" : String) = "") ∧
    ((wsCallStart true ⟨"post", "/v1/x", some "abc"⟩).isOk = true) ∧
    (wsCall true ⟨"post", "/v1/x", some (String.mk (List.replicate 20001 ('a' : Char)))⟩ [] =
      .localReject ("Request body exceeds maximum size of 20000 bytes")) :=
  ⟨by decide,
   (wsCall_body_size_limit ⟨"post", "/v1/x", some "abc"⟩ [] (by decide)).2 (by decide),
   (wsCall_body_size_limit _ [] (by decide)).1 (by
      show bodySizeLimit < String.utf8Len (List.replicate 20001 ('a' : Char))
      rw [utf8len_replicate]
      decide)⟩

end Respoke

namespace Respoke

/-- Helper: the deferred identity is untouched while callers accumulate. -/
theorem join_foldl_deferredId (calls : List (List JsVal)) :
    ∀ (acc : List Nat) (st : JoinState),
      (calls.foldl joinStep (acc, st)).2.deferredId = st.deferredId := by
  induction calls with
  | nil => intro acc st; rfl
  | cons c cs ih =>
    intro acc st
    simp only [List.foldl_cons]
    rw [joinStep]
    rw [ih]
    rfl

/-- Helper: every synchronous caller of a window receives the promise of
the deferred current at the start of the window. -/
theorem join_foldl_promises (calls : List (List JsVal)) :
    ∀ (acc : List Nat) (st : JoinState),
      (calls.foldl joinStep (acc, st)).1 = acc ++ calls.map (fun _ => st.deferredId) := by
  induction calls with
  | nil => intro acc st; simp
  | cons c cs ih =>
    intro acc st
    simp only [List.foldl_cons, List.map_cons]
    rw [joinStep, ih]
    simp [joinGroupCall]

/-- Helper: the accumulator after a window is the fold of addKeys. -/
theorem join_foldl_groups (calls : List (List JsVal)) :
    ∀ (acc : List Nat) (st : JoinState),
      (calls.foldl joinStep (acc, st)).2.groups = calls.foldl addKeys st.groups := by
  induction calls with
  | nil => intro acc st; rfl
  | cons c cs ih =>
    intro acc st
    simp only [List.foldl_cons]
    rw [joinStep, ih]
    rfl

/-- Helper: adding keys never empties a non-empty accumulator. -/
theorem addKeys_ne_nil (l : List JsVal) :
    ∀ (ks : List String), ks ≠ [] → addKeys ks l ≠ [] := by
  induction l with
  | nil => intro ks h; exact h
  | cons v vs ih =>
    intro ks h
    rw [addKeys] at *
    simp only [List.foldl_cons]
    cases v with
    | other => exact ih ks h
    | str s =>
      apply ih
      by_cases hm : s ∈ ks
      · simpa [insertKey, hm]
      · simp [insertKey, hm]

/-- Helper: a non-empty accumulator implies at least one queued flush. -/
theorem join_foldl_scheduled (calls : List (List JsVal)) :
    ∀ (acc : List Nat) (st : JoinState),
      (st.groups ≠ [] → 1 ≤ st.scheduled) →
      ((calls.foldl joinStep (acc, st)).2.groups ≠ [] →
        1 ≤ (calls.foldl joinStep (acc, st)).2.scheduled) := by
  induction calls with
  | nil => intro acc st h; exact h
  | cons c cs ih =>
    intro acc st h
    simp only [List.foldl_cons]
    rw [joinStep]
    apply ih
    intro hne
    rw [joinGroupCall]
    simp only []
    by_cases he : st.groups.isEmpty
    · simp [he]
    · simp [he]
      apply h
      intro hx
      rw [hx] at he
      exact he rfl

/-- Helper: flushes of an empty accumulator issue no RPC. -/
theorem runJoinFlushes_empty (n : Nat) :
    ∀ (st : JoinState), st.groups = [] → (runJoinFlushes n st).2 = [] := by
  induction n with
  | zero => intro st h; rfl
  | succ k ih =>
    intro st h
    rw [runJoinFlushes, flushJoin]
    simp [h, ih]

/-- Helper: with a non-empty accumulator, the queued flushes issue exactly
one RPC, settling the deferred current when the window started. -/
theorem runJoinFlushes_one (n : Nat) (st : JoinState)
    (hne : st.groups ≠ []) (hn : 1 ≤ n) :
    (runJoinFlushes n st).2 =
      [({ httpMethod := "POST", path := "/v1/groups/", groups := st.groups }, st.deferredId)] := by
  cases n with
  | zero => omega
  | succ k =>
    rw [runJoinFlushes, flushJoin]
    have he : st.groups.isEmpty = false := by
      cases hg : st.groups with
      | nil => exact absurd hg hne
      | cons a as => rfl
    simp [he, runJoinFlushes_empty k]

/-- C6 (amended): for a batch window of synchronous joinGroup calls while
connected that contribute at least one string group id, every caller
receives the identical promise (the promise of deferred 0 of the window),
and exactly one POST to /v1/groups/ is issued, whose groups parameter is
the ordered union of the string elements of all the groupList arguments;
that single RPC settles deferred 0, the promise handed to every caller.
(A window whose calls contribute no string id issues no RPC at all, see
the counterexample.) -/
theorem joinGroup_single_batched_rpc (calls : List (List JsVal))
    (hne : ¬ unionKeys calls = []) :
    (joinWindow calls).1 = calls.map (fun _ => 0) ∧
    (joinWindow calls).2 =
      [({ httpMethod := "POST", path := "/v1/groups/", groups := unionKeys calls }, 0)] := by
  constructor
  · rw [joinWindow]
    simp only []
    rw [join_foldl_promises]
    simp
  · rw [joinWindow]
    simp only []
    have hg : (calls.foldl joinStep ([], {})).2.groups = unionKeys calls := by
      rw [join_foldl_groups]; rfl
    have hs : 1 ≤ (calls.foldl joinStep ([], {})).2.scheduled := by
      apply join_foldl_scheduled calls [] {} (by intro h; exact absurd rfl h)
      rw [hg]; exact hne
    rw [runJoinFlushes_one _ _ (by rw [hg]; exact hne) hs, hg, join_foldl_deferredId]

/-- Witness for C6: two synchronous calls with overlapping group lists
yield the same promise for both and one deduplicated RPC. -/
theorem joinGroup_single_batched_rpc_witness :
    (¬ unionKeys [[JsVal.str "g1", JsVal.str "g2"], [JsVal.str "g2", JsVal.str "g3"]] = []) ∧
    (joinWindow [[JsVal.str "g1", JsVal.str "g2"], [JsVal.str "g2", JsVal.str "g3"]]).1
      = [0, 0] ∧
    (joinWindow [[JsVal.str "g1", JsVal.str "g2"], [JsVal.str "g2", JsVal.str "g3"]]).2
      = [({ httpMethod := "POST", path := "/v1/groups/", groups := ["g1", "g2", "g3"] }, 0)] :=
  ⟨by decide,
   by
     rw [(joinGroup_single_batched_rpc
       [[JsVal.str "g1", JsVal.str "g2"], [JsVal.str "g2", JsVal.str "g3"]] (by decide)).1]
     decide,
   by
     rw [(joinGroup_single_batched_rpc
       [[JsVal.str "g1", JsVal.str "g2"], [JsVal.str "g2", JsVal.str "g3"]] (by decide)).2]
     decide⟩

/-- Counterexample for C6 as frozen: a window of one synchronous call with
an empty groupList issues NO wire RPC (not exactly one); the caller still
receives the promise of deferred 0. -/
theorem joinGroup_empty_window_no_rpc :
    joinWindow [[]] = ([0], []) := by decide

/-- Helper: flushes that find an empty endpoints accumulator issue no RPC
and leave the registered set alone. -/
theorem presenceFlushLoop_empty (success : Bool) (l : List (List JsVal)) :
    ∀ (reg : List String), presenceFlushLoop success l reg [] = (reg, []) := by
  induction l with
  | nil => intro reg; rfl
  | cons c rest ih =>
    intro reg
    rw [presenceFlushLoop]
    simp [ih]

/-- Helper: the fold of registerPresenceCall only appends flush slots. -/
theorem presence_foldl_flushes (reg : List String) (cs : List (List JsVal)) :
    ∀ (s : PresenceState), ∃ t,
      (cs.foldl (registerPresenceCall reg) s).flushes = s.flushes ++ t := by
  induction cs with
  | nil => intro s; exact ⟨[], by simp⟩
  | cons l ls ih =>
    intro s
    simp only [List.foldl_cons]
    obtain ⟨t, ht⟩ := ih (registerPresenceCall reg s l)
    by_cases he : s.endpoints.isEmpty
    · refine ⟨[l] ++ t, ?_⟩
      rw [ht, registerPresenceCall]
      simp [he]
    · refine ⟨t, ?_⟩
      rw [ht, registerPresenceCall]
      simp [he]

/-- C7 (amended): when a registerPresence batch window with at least one
new endpoint id flushes and its RPC succeeds, the ids recorded in the
registered set are exactly those of the endpointList of the call that
scheduled the flush - the FIRST synchronous call of the window - inserted
into the previous set; ids contributed only by later synchronous calls of
the same window are sent in the RPC but not recorded, and are therefore
not suppressed from later batches.  The window issues exactly one RPC,
carrying the whole accumulated batch. -/
theorem registerPresence_records_first_caller (reg : List String)
    (c : List JsVal) (cs : List (List JsVal))
    (hne : ¬ (presenceAccum reg (c :: cs)).endpoints = []) :
    (presenceWindow reg (c :: cs) true).1 = (jsStrings c).foldl insertKey reg ∧
    (presenceWindow reg (c :: cs) true).2 =
      [{ httpMethod := "POST", path := "/v1/presenceobservers",
         groups := (presenceAccum reg (c :: cs)).endpoints }] := by
  have hacc : presenceAccum reg (c :: cs) =
      cs.foldl (registerPresenceCall reg) (registerPresenceCall reg {} c) := by
    rw [presenceAccum]
    simp
  have hfl1 : (registerPresenceCall reg ({} : PresenceState) c).flushes = [c] := by
    rw [registerPresenceCall]
    rfl
  obtain ⟨t, ht⟩ := presence_foldl_flushes reg cs (registerPresenceCall reg {} c)
  rw [hfl1] at ht
  have hflush : (presenceAccum reg (c :: cs)).flushes = c :: t := by
    rw [hacc, ht]
    rfl
  have hee : (presenceAccum reg (c :: cs)).endpoints.isEmpty = false := by
    cases hg : (presenceAccum reg (c :: cs)).endpoints with
    | nil => exact absurd hg hne
    | cons a as => rfl
  constructor
  · rw [presenceWindow, hflush]
    rw [presenceFlushLoop]
    simp [hee, presenceFlushLoop_empty]
  · rw [presenceWindow, hflush]
    rw [presenceFlushLoop]
    simp [hee, presenceFlushLoop_empty]

/-- Witness for C7: the first caller contributes u1 and u2, the second
contributes u3; the batch sends all three but only u1 and u2 are
recorded. -/
theorem registerPresence_records_first_caller_witness :
    (¬ (presenceAccum [] [[JsVal.str "u1", JsVal.str "u2"],
        [JsVal.str "u2", JsVal.str "u3"]]).endpoints = []) ∧
    (presenceWindow [] [[JsVal.str "u1", JsVal.str "u2"],
        [JsVal.str "u2", JsVal.str "u3"]] true).1 = ["u1", "u2"] ∧
    (presenceWindow [] [[JsVal.str "u1", JsVal.str "u2"],
        [JsVal.str "u2", JsVal.str "u3"]] true).2 =
      [{ httpMethod := "POST", path := "/v1/presenceobservers",
         groups := ["u1", "u2", "u3"] }] :=
  ⟨by decide,
   by
     rw [(registerPresence_records_first_caller [] [JsVal.str "u1", JsVal.str "u2"]
       [[JsVal.str "u2", JsVal.str "u3"]] (by decide)).1]
     decide,
   by
     rw [(registerPresence_records_first_caller [] [JsVal.str "u1", JsVal.str "u2"]
       [[JsVal.str "u2", JsVal.str "u3"]] (by decide)).2]
     decide⟩

/-- Counterexample for C7 as frozen: after a successful batch that sent u1
and u3 (u3 contributed by the second synchronous caller), the registered
set holds only u1, and a later window naming u3 sends u3 again instead of
suppressing it. -/
theorem registerPresence_batch_not_all_recorded :
    (presenceWindow [] [[JsVal.str "u1"], [JsVal.str "u3"]] true =
      (["u1"], [{ httpMethod := "POST", path := "/v1/presenceobservers",
                  groups := ["u1", "u3"] }])) ∧
    (presenceWindow ["u1"] [[JsVal.str "u3"]] true =
      (["u1", "u3"], [{ httpMethod := "POST", path := "/v1/presenceobservers",
                        groups := ["u3"] }])) := by
  refine ⟨by decide, by decide⟩

end Respoke
